import Mathlib

/-
Verification of the request-orchestration core of the image-caption-generator
frontend (src/frontend/lib/api.js): configuration, request executor
(makeRequest), validators, and the three public operations.

Modelling conventions for the shallow embedding:
- JavaScript numbers that hold byte counts or HTTP statuses are Nat;
  beamWidth is Int. File sizes are integers below 2^53, where division by
  2^20 is exact in IEEE doubles, so exact rational rounding models
  toFixed(2) precisely.
- A parsed JSON value is JsValue; a body that fails JSON.parse is
  Except.error carrying the thrown exception, so that propagation
  "unmodified" is expressible.
- The behaviour of one fetch call is a TransportOutcome: it settles with a
  response before the 60000 ms timer fires, it rejects with a network
  error (whose name is never AbortError, since only the internally armed
  AbortController can abort the signal), or the timer fires first, in
  which case fetch rejects with AbortError.
- Thrown values are JsError: apiError is the APIError class of api.js,
  rawError is any other exception reaching the caller untranslated.
- The setTimeout timer is threaded explicitly as TimerState so that the
  clearTimeout calls of every control-flow path are visible in the model.
-/

structure APIConfig where
  baseURL : String
  timeout : Nat
  maxFileSize : Nat
  maxBatchSize : Nat

/-- API_CONFIG of api.js; baseURL comes from the environment and is kept
abstract as a parameter where it matters. -/
def API_CONFIG (baseURL : String) : APIConfig :=
  { baseURL := baseURL
    timeout := 60000
    maxFileSize := 10 * 1024 * 1024
    maxBatchSize := 3 }

/-- A JSON value as produced by JSON.parse (object keys already
deduplicated by the parser, last occurrence winning). -/
inductive JsValue where
  | null : JsValue
  | bool (b : Bool) : JsValue
  | num (n : Int) : JsValue
  | str (s : String) : JsValue
  | obj (fields : List (String × JsValue)) : JsValue

/-- Property lookup on a parsed object field list. -/
def lookupField : List (String × JsValue) → String → Option JsValue
  | [], _ => none
  | (k, v) :: rest, key => if k = key then some v else lookupField rest key

/-- JavaScript truthiness of a JsValue. -/
def truthy : JsValue → Bool
  | .null => false
  | .bool b => b
  | .num n => n != 0
  | .str s => s != ""
  | .obj _ => true

/-- JavaScript string coercion, as applied by the Error constructor to a
non-string message. -/
def jsToString : JsValue → String
  | .null => "null"
  | .bool b => if b then "true" else "false"
  | .num n => toString n
  | .str s => s
  | .obj _ => "[object Object]"

/-- One transport response: its HTTP status and the result of parsing its
body as JSON (Except.error carries the exception json() would throw). -/
structure FetchResponse where
  status : Nat
  body : Except String JsValue

/-- response.ok of the Fetch API: status in the inclusive range 200-299. -/
def responseOk (status : Nat) : Bool :=
  200 ≤ status && status ≤ 299

/-- The behaviour of the transport for one call. -/
inductive TransportOutcome where
  | response (r : FetchResponse) : TransportOutcome
  | networkError (e : String) : TransportOutcome
  | timeout : TransportOutcome

/-- A thrown value as seen by the caller of a public operation. -/
inductive JsError where
  | apiError (message : String) (status : Nat) : JsError
  | rawError (e : String) : JsError

/-- Resolution of one operation: the fulfilled value or the thrown error. -/
inductive RequestResult where
  | success (v : JsValue) : RequestResult
  | failure (e : JsError) : RequestResult

/-- State of the cancellation timer armed by setTimeout. -/
structure TimerState where
  cleared : Bool

/-- The timer as armed at the top of makeRequest, before any clearTimeout. -/
def armedTimer : TimerState := { cleared := false }

/-- clearTimeout(timeoutId). -/
def clearTimeoutFn (t : TimerState) : TimerState := { t with cleared := true }

/-- errorData of the non-ok branch: await response.json().catch(() => ({})),
so a parse failure is swallowed into the empty object. -/
def errorData (body : Except String JsValue) : JsValue :=
  match body with
  | .ok v => v
  | .error _ => .obj []

/-- errorData.detail: property access on the JavaScript value null throws
a TypeError (Except.error carries it); on an object it yields the field,
or undefined (none) when absent; on any other value (booleans, numbers,
strings) it yields undefined without throwing. A parse failure never
reaches here as null because the catch handler replaced it with the empty
object. -/
def detailOf (body : Except String JsValue) : Except String (Option JsValue) :=
  match errorData body with
  | .null => .error "TypeError: Cannot read properties of null"
  | .obj fields => .ok (lookupField fields "detail")
  | _ => .ok none

/-- errorData.detail || "HTTP " + response.status, once the detail access
succeeded: the detail value when truthy (coerced to a string by the Error
constructor), else the fallback. -/
def errorMessageFor (d : Option JsValue) (status : Nat) : String :=
  match d with
  | some v => if truthy v then jsToString v else "HTTP " ++ toString status
  | none => "HTTP " ++ toString status

/-- makeRequest of api.js, as a function of the transport outcome. Returns
the resolution together with the final timer state. Control flow mirrored
from the source:
- timer fires first: fetch rejects with AbortError, the catch block runs
  clearTimeout and throws APIError("Request timeout", 408);
- fetch rejects with a network error: its name is not AbortError, so the
  catch block runs clearTimeout and rethrows it unmodified;
- fetch resolves: clearTimeout runs; on a non-ok status, reading
  errorData.detail either throws a TypeError (errorData null), which the
  catch block clears again and rethrows raw, or succeeds, and the APIError
  built from it is thrown, caught by the catch block (name APIError is
  not AbortError), clearTimeout runs again and it is rethrown; on an ok
  status response.json() either resolves to the payload or throws, and a
  throw reaches the catch block, which runs clearTimeout and rethrows. -/
def makeRequest (outcome : TransportOutcome) : RequestResult × TimerState :=
  match outcome with
  | .timeout =>
      (.failure (.apiError "Request timeout" 408), clearTimeoutFn armedTimer)
  | .networkError e =>
      (.failure (.rawError e), clearTimeoutFn armedTimer)
  | .response r =>
      if responseOk r.status then
        match r.body with
        | .ok v => (.success v, clearTimeoutFn armedTimer)
        | .error e =>
            (.failure (.rawError e), clearTimeoutFn (clearTimeoutFn armedTimer))
      else
        match detailOf r.body with
        | .error e =>
            (.failure (.rawError e), clearTimeoutFn (clearTimeoutFn armedTimer))
        | .ok d =>
            (.failure (.apiError (errorMessageFor d r.status) r.status),
              clearTimeoutFn (clearTimeoutFn armedTimer))

/-- A browser File as far as api.js inspects it: size in bytes, declared
media type, and a name to tell files apart in a multipart body. -/
structure JFile where
  size : Nat
  type : String
  name : String

/-- (file.size / 1024 / 1024).toFixed(2): file sizes are integers below
2^53, so size / 2^20 is exact in IEEE doubles and toFixed rounds the exact
value to the nearest hundredth, half away from zero (here half up, the
value being nonnegative). -/
def toFixed2MB (size : Nat) : String :=
  let hundredths := (size * 100 * 2 + 1048576) / (2 * 1048576)
  let frac := hundredths % 100
  toString (hundredths / 100) ++ "." ++
    (if frac < 10 then "0" else "") ++ toString frac

/-- String.prototype.startsWith of JavaScript, expressed on the character
lists so that concrete instances evaluate inside the kernel. -/
def jsStartsWith (s p : String) : Bool :=
  p.data.isPrefixOf s.data

/-- validateFile of api.js: accumulates all violation messages. -/
def validateFile (file : JFile) : List String :=
  (if file.size > (API_CONFIG "").maxFileSize then
    ["File too large (" ++ toFixed2MB file.size ++ "MB). Max: 10MB"]
  else []) ++
  (if !(jsStartsWith file.type "image/") then
    ["File must be an image"]
  else [])

/-- One entry of a FormData body. -/
inductive FormEntry where
  | file (field : String) (f : JFile) : FormEntry
  | str (field : String) (v : String) : FormEntry

/-- The request an operation hands to the executor: relative path, HTTP
method, multipart entries (empty list for a body-less request). -/
structure OutboundRequest where
  path : String
  method : String
  body : List FormEntry

/-- What a public operation does before the network: throw a client-side
APIError, or proceed to makeRequest with this request. -/
inductive OpCall where
  | validationError (message : String) (status : Nat) : OpCall
  | request (req : OutboundRequest) : OpCall

/-- The options argument of generateCaption; none models an absent (or
undefined) property. -/
structure CaptionOptions where
  method : Option String
  beamWidth : Option Int

/-- Truthiness of options.method: absent and the empty string are falsy. -/
def methodEntries (m : Option String) : List FormEntry :=
  match m with
  | some s => if s != "" then [.str "method" s] else []
  | none => []

/-- Truthiness of options.beamWidth: absent and 0 are falsy; a truthy
value is appended as beamWidth.toString(). -/
def beamWidthEntries (b : Option Int) : List FormEntry :=
  match b with
  | some n => if n != 0 then [.str "beam_width" (toString n)] else []
  | none => []

/-- generateCaption of api.js up to the network boundary. -/
def generateCaption (file : JFile) (options : CaptionOptions) : OpCall :=
  let validationErrors := validateFile file
  if validationErrors.length > 0 then
    .validationError (String.intercalate ", " validationErrors) 400
  else
    .request
      { path := "/generate-caption"
        method := "POST"
        body := [.file "file" file] ++ methodEntries options.method ++
          beamWidthEntries options.beamWidth }

/-- batchGenerateCaptions of api.js up to the network boundary. -/
def batchGenerateCaptions (files : List JFile) : OpCall :=
  if files.length > (API_CONFIG "").maxBatchSize then
    .validationError
      ("Max " ++ toString (API_CONFIG "").maxBatchSize ++ " files allowed") 400
  else
    .request
      { path := "/batch-generate"
        method := "POST"
        body := files.map (fun f => .file "files" f) }

/-- checkHealth of api.js: makeRequest("/health") with default options, so
fetch uses method GET and no body, and no validator runs. -/
def checkHealth : OpCall :=
  .request { path := "/health", method := "GET", body := [] }

/-- Resolution of a whole public operation: a validator short-circuit is a
thrown APIError; otherwise the executor runs against the transport. -/
def runOp (call : OpCall) (outcome : TransportOutcome) : RequestResult :=
  match call with
  | .validationError m s => .failure (.apiError m s)
  | .request _ => (makeRequest outcome).1

/-- Does this outcome land in the malformed-success-body case: an ok
status whose body fails to decode. -/
def isMalformedSuccess : TransportOutcome → Bool
  | .response r =>
      responseOk r.status &&
        (match r.body with | .error _ => true | .ok _ => false)
  | _ => false

/-- Is this outcome a transport-level rejection (network fault). -/
def isNetworkFault : TransportOutcome → Bool
  | .networkError _ => true
  | _ => false

/-- Does this outcome land in the null-error-body case: a non-2xx status
whose JSON body decodes to null, where reading errorData.detail throws a
TypeError. -/
def isNullErrorBody : TransportOutcome → Bool
  | .response r =>
      !responseOk r.status &&
        (match errorData r.body with | .null => true | _ => false)
  | _ => false

/-- Did the transport fail to settle within the timeout budget. -/
def isTimeoutOutcome : TransportOutcome → Bool
  | .timeout => true
  | _ => false

/-- Did the operation resolve to an untranslated (non-APIError) throw. -/
def isRawFailure : RequestResult → Bool
  | .failure (.rawError _) => true
  | _ => false

/-- Does a multipart body contain a string entry under this field name. -/
def hasStrField (body : List FormEntry) (field : String) : Bool :=
  body.any (fun entry =>
    match entry with
    | .str f _ => f = field
    | .file _ _ => false)

/-- C8: on every exit path of the executor — success, remote-failure
error, timeout, and network fault — the cancellation timer is cleared
before the operation resolves, so no armed timer outlives the call. -/
theorem makeRequest_timer_cleared (outcome : TransportOutcome) :
    ((makeRequest outcome).2).cleared = true := by
  cases outcome with
  | timeout => rfl
  | networkError e => rfl
  | response r =>
    simp only [makeRequest]
    split
    · split <;> rfl
    · split <;> rfl

/-- C9: checkHealth issues a GET request with no body to the fixed health
path, applies no validation (it is a request, not a validation error), and
resolves to the decoded JSON response: a simulated 200 response with body
containing status "ok" resolves to that payload unchanged. -/
theorem checkHealth_spec :
    checkHealth = .request ⟨"/health", "GET", []⟩ ∧
    runOp checkHealth (.response ⟨200, .ok (.obj [("status", .str "ok")])⟩) =
      .success (.obj [("status", .str "ok")]) :=
  ⟨rfl, rfl⟩

/-- C10: batchGenerateCaptions called with an empty list raises no
client-side validation error; it builds a multipart body with no entries
and submits the POST to the batch path. -/
theorem batchGenerateCaptions_empty :
    batchGenerateCaptions [] = .request ⟨"/batch-generate", "POST", []⟩ :=
  rfl

/-- C4: a list of more than 3 files fails with status 400 and message
exactly "Max 3 files allowed" before any network call; a list of at most
3 files always proceeds to the network request, so no property of the
individual files can cause a client-side 400 in the batch path. -/
theorem batchGenerateCaptions_cardinality (files : List JFile) :
    (3 < files.length →
      batchGenerateCaptions files = .validationError "Max 3 files allowed" 400) ∧
    (files.length ≤ 3 →
      batchGenerateCaptions files =
        .request ⟨"/batch-generate", "POST",
          files.map (fun f => .file "files" f)⟩) := by
  constructor
  · intro h
    have h3 : files.length > (API_CONFIG "").maxBatchSize := h
    unfold batchGenerateCaptions
    rw [if_pos h3]
    rfl
  · intro h
    have h3 : ¬files.length > (API_CONFIG "").maxBatchSize := Nat.not_lt.mpr h
    unfold batchGenerateCaptions
    rw [if_neg h3]

/-- Witness for C4 at a four-element list and a one-element list. -/
theorem batchGenerateCaptions_cardinality_witness :
    batchGenerateCaptions
        [⟨100, "image/png", "a"⟩, ⟨100, "image/png", "b"⟩,
          ⟨100, "image/png", "c"⟩, ⟨100, "image/png", "d"⟩] =
      .validationError "Max 3 files allowed" 400 ∧
    batchGenerateCaptions [⟨100, "image/png", "a"⟩] =
      .request ⟨"/batch-generate", "POST",
        [.file "files" ⟨100, "image/png", "a"⟩]⟩ :=
  ⟨(batchGenerateCaptions_cardinality _).1 (by decide),
    (batchGenerateCaptions_cardinality _).2 (by decide)⟩

/-- Counterexample to C1 as stated: a transport-level network fault is
not the malformed-success-body case, yet the rejection reaches the caller
as the untranslated raw error, not as a GatewayError. -/
theorem networkError_escapes_untranslated :
    isMalformedSuccess (.networkError "TypeError: Failed to fetch") = false ∧
    (makeRequest (.networkError "TypeError: Failed to fetch")).1 =
      .failure (.rawError "TypeError: Failed to fetch") :=
  ⟨rfl, rfl⟩

/-- Counterexample to C2 as stated: a remote response with HTTP status 408
and an unparsable body yields GatewayError with status 408 on the
remote-error path, which is not the client-enforced timeout path. -/
theorem remote_408_not_timeout :
    (makeRequest (.response ⟨408, .error "SyntaxError"⟩)).1 =
      .failure (.apiError "HTTP 408" 408) ∧
    isTimeoutOutcome (.response ⟨408, .error "SyntaxError"⟩) = false :=
  ⟨rfl, rfl⟩

/-- Counterexample to C5 as stated: a 500 response whose body parses as
JSON and contains a detail field holding the empty string resolves to the
fallback message "HTTP 500", not to the empty detail string. -/
theorem empty_detail_falls_back :
    detailOf (Except.ok (JsValue.obj [("detail", .str "")])) =
      .ok (some (.str "")) ∧
    (makeRequest (.response ⟨500, .ok (.obj [("detail", .str "")])⟩)).1 =
      .failure (.apiError "HTTP 500" 500) ∧
    "HTTP 500" ≠ "" :=
  ⟨rfl, rfl, by decide⟩

/-- Counterexample to C7 as stated: with method supplied as the empty
string and beamWidth supplied as 0, both options are supplied, yet the
multipart body contains neither a method field nor a beam_width field. -/
theorem falsy_options_omitted :
    (CaptionOptions.mk (some "") (some 0)).method = some "" ∧
    (CaptionOptions.mk (some "") (some 0)).beamWidth = some 0 ∧
    generateCaption ⟨100, "image/png", "a"⟩ ⟨some "", some 0⟩ =
      .request ⟨"/generate-caption", "POST",
        [.file "file" ⟨100, "image/png", "a"⟩]⟩ ∧
    hasStrField [FormEntry.file "file" ⟨100, "image/png", "a"⟩] "method" =
      false ∧
    hasStrField [FormEntry.file "file" ⟨100, "image/png", "a"⟩]
      "beam_width" = false :=
  ⟨rfl, rfl, rfl, rfl, rfl⟩

/-- C6: a 2xx response whose body fails to decode is propagated to the
caller unmodified as the raw parse error, not translated into a
GatewayError; a 2xx response with a well-formed body resolves to the
decoded payload passed through unchanged. -/
theorem success_body_passthrough (r : FetchResponse)
    (h : responseOk r.status = true) :
    (∀ e, r.body = .error e →
      (makeRequest (.response r)).1 = .failure (.rawError e)) ∧
    (∀ v, r.body = .ok v → (makeRequest (.response r)).1 = .success v) := by
  constructor
  · intro e he
    simp [makeRequest, h, he]
  · intro v hv
    simp [makeRequest, h, hv]

/-- Witness for C6 at a 200 response with a decoded caption payload. -/
theorem success_body_passthrough_witness :
    (makeRequest (.response ⟨200, .ok (.obj [("caption", .str "a cat")])⟩)).1 =
      .success (.obj [("caption", .str "a cat")]) :=
  (success_body_passthrough ⟨200, .ok (.obj [("caption", .str "a cat")])⟩
    rfl).2 (.obj [("caption", .str "a cat")]) rfl

/-- C1 (amended): every public operation resolves to exactly one of a
decoded success payload or a GatewayError, and no raw transport exception
reaches the caller, except in three cases the catch block rethrows
untranslated: the malformed-success-body case, transport-level network
faults, and non-2xx responses whose JSON body is null, where reading the
detail property of the error data throws a TypeError. -/
theorem runOp_translates_recoverable_failures (call : OpCall)
    (outcome : TransportOutcome)
    (h1 : isMalformedSuccess outcome = false)
    (h2 : isNetworkFault outcome = false)
    (h3 : isNullErrorBody outcome = false) :
    isRawFailure (runOp call outcome) = false := by
  cases call with
  | validationError m s => rfl
  | request req =>
    cases outcome with
    | timeout => rfl
    | networkError e => simp [isNetworkFault] at h2
    | response r =>
      simp only [isMalformedSuccess] at h1
      by_cases hok : responseOk r.status = true
      · rw [hok] at h1
        simp only [Bool.true_and] at h1
        cases hb : r.body with
        | ok v => simp [runOp, makeRequest, hok, hb, isRawFailure]
        | error e => rw [hb] at h1; simp at h1
      · have hok2 : responseOk r.status = false := by
          cases hq : responseOk r.status
          · rfl
          · exact absurd hq hok
        simp only [isNullErrorBody, hok2, Bool.not_false, Bool.true_and] at h3
        cases hv : errorData r.body with
        | null => rw [hv] at h3; simp at h3
        | bool b => simp [runOp, makeRequest, hok2, detailOf, hv, isRawFailure]
        | num n => simp [runOp, makeRequest, hok2, detailOf, hv, isRawFailure]
        | str s => simp [runOp, makeRequest, hok2, detailOf, hv, isRawFailure]
        | obj fields =>
          simp [runOp, makeRequest, hok2, detailOf, hv, isRawFailure]

/-- Witness for C1 at a health check against a 503 with unparsable body. -/
theorem runOp_translates_recoverable_failures_witness :
    isRawFailure (runOp checkHealth
      (.response ⟨503, .error "SyntaxError"⟩)) = false :=
  runOp_translates_recoverable_failures checkHealth
    (.response ⟨503, .error "SyntaxError"⟩) rfl rfl rfl

/-- C2 (amended): when the transport does not settle within the timeout
budget the operation resolves to GatewayError with message "Request
timeout" and status 408; and the executor produces status 408 only on the
timeout path, except when the remote itself responds with HTTP status
408, which is passed through like any other remote status. -/
theorem timeout_408_and_exclusivity (outcome : TransportOutcome) (m : String)
    (h : (makeRequest outcome).1 = .failure (.apiError m 408)) :
    (makeRequest .timeout).1 = .failure (.apiError "Request timeout" 408) ∧
    (outcome = .timeout ∨ ∃ r, outcome = .response r ∧ r.status = 408) := by
  refine ⟨rfl, ?_⟩
  cases outcome with
  | timeout => exact Or.inl rfl
  | networkError e => simp [makeRequest] at h
  | response r =>
    refine Or.inr ⟨r, rfl, ?_⟩
    simp only [makeRequest] at h
    by_cases hok : responseOk r.status = true
    · cases hb : r.body with
      | ok v => rw [hb] at h; simp [hok] at h
      | error e => rw [hb] at h; simp [hok] at h
    · cases hd : detailOf r.body with
      | error e => rw [hd] at h; simp [hok] at h
      | ok d =>
        rw [hd] at h
        simp [hok] at h
        exact h.2

/-- Witness for C2 at the timeout outcome. -/
theorem timeout_408_and_exclusivity_witness :
    (makeRequest .timeout).1 = .failure (.apiError "Request timeout" 408) ∧
    (TransportOutcome.timeout = .timeout ∨
      ∃ r, TransportOutcome.timeout = .response r ∧ r.status = 408) :=
  timeout_408_and_exclusivity .timeout "Request timeout" rfl

/-- C5 (amended): a non-2xx response whose detail access does not throw
resolves to GatewayError carrying the response status; the message is the
detail string when the body parses as JSON and holds a non-empty string
under detail, and is exactly "HTTP " followed by the status when the
detail field is absent without throwing (an unparsable body, a non-null
non-object body, or an object without detail) or holds the empty string,
the empty string being falsy and hence replaced by the fallback; when the
body is the JSON value null, reading the detail property throws a
TypeError that is rethrown raw, not turned into a GatewayError. -/
theorem remote_error_message (r : FetchResponse)
    (h : responseOk r.status = false) :
    (∀ s, detailOf r.body = .ok (some (.str s)) → s ≠ "" →
      (makeRequest (.response r)).1 = .failure (.apiError s r.status)) ∧
    ((detailOf r.body = .ok none ∨ detailOf r.body = .ok (some (.str ""))) →
      (makeRequest (.response r)).1 =
        .failure (.apiError ("HTTP " ++ toString r.status) r.status)) ∧
    (∀ e, detailOf r.body = .error e →
      (makeRequest (.response r)).1 = .failure (.rawError e)) := by
  have hok : ¬responseOk r.status = true := by simp [h]
  refine ⟨?_, ?_, ?_⟩
  · intro s hd hs
    simp only [makeRequest]
    rw [if_neg hok, hd]
    simp [errorMessageFor, truthy, jsToString, hs]
  · intro hd2
    simp only [makeRequest]
    rw [if_neg hok]
    rcases hd2 with hd | hd
    · rw [hd]
      rfl
    · rw [hd]
      simp [errorMessageFor, truthy]
  · intro e hd
    simp only [makeRequest]
    rw [if_neg hok, hd]

/-- Witness for C5 at a 500 response carrying a structured detail. -/
theorem remote_error_message_witness :
    (makeRequest (.response ⟨500,
        .ok (.obj [("detail", .str "model unavailable")])⟩)).1 =
      .failure (.apiError "model unavailable" 500) :=
  (remote_error_message
    ⟨500, .ok (.obj [("detail", .str "model unavailable")])⟩ rfl).1
    "model unavailable" rfl (by decide)

/-- C3: a file violating at least one constraint fails with status 400
and a message equal to all applicable violation messages joined by ", ",
before any network call (the result is a validation error, not a
request). A size violation (size strictly over 10 MiB) contributes the
message built from the size in MB to two decimal places and the string
"10MB"; a type violation (media type not starting with "image/")
contributes "File must be an image"; both appear, size first, when both
are violated. -/
theorem generateCaption_validation_400 (file : JFile)
    (options : CaptionOptions)
    (h : 10485760 < file.size ∨ jsStartsWith file.type "image/" = false) :
    generateCaption file options =
      .validationError (String.intercalate ", " (validateFile file)) 400 ∧
    (10485760 < file.size → jsStartsWith file.type "image/" = false →
      String.intercalate ", " (validateFile file) =
        "File too large (" ++ toFixed2MB file.size ++ "MB). Max: 10MB" ++
          ", " ++ "File must be an image") ∧
    (10485760 < file.size → jsStartsWith file.type "image/" = true →
      String.intercalate ", " (validateFile file) =
        "File too large (" ++ toFixed2MB file.size ++ "MB). Max: 10MB") ∧
    (file.size ≤ 10485760 → jsStartsWith file.type "image/" = false →
      String.intercalate ", " (validateFile file) = "File must be an image") := by
  by_cases hsz : (API_CONFIG "").maxFileSize < file.size <;>
    by_cases hty : jsStartsWith file.type "image/" = true
  · have hval : validateFile file =
        ["File too large (" ++ toFixed2MB file.size ++ "MB). Max: 10MB"] := by
      simp [validateFile, hsz, hty]
    refine ⟨by simp [generateCaption, hval], ?_, ?_, ?_⟩
    · intro _ hty2
      simp [hty] at hty2
    · intro _ _
      rw [hval]
      rfl
    · intro hle _
      exact absurd hsz (Nat.not_lt.mpr hle)
  · have hty2 : jsStartsWith file.type "image/" = false := by
      cases hq : jsStartsWith file.type "image/"
      · rfl
      · exact absurd hq hty
    have hval : validateFile file =
        ["File too large (" ++ toFixed2MB file.size ++ "MB). Max: 10MB",
          "File must be an image"] := by
      simp [validateFile, hsz, hty2]
    refine ⟨by simp [generateCaption, hval], ?_, ?_, ?_⟩
    · intro _ _
      rw [hval]
      rfl
    · intro _ hty3
      simp [hty3] at hty2
    · intro hle _
      exact absurd hsz (Nat.not_lt.mpr hle)
  · exfalso
    rcases h with hs | ht
    · exact hsz hs
    · simp [ht] at hty
  · have hty2 : jsStartsWith file.type "image/" = false := by
      cases hq : jsStartsWith file.type "image/"
      · rfl
      · exact absurd hq hty
    have hval : validateFile file = ["File must be an image"] := by
      simp [validateFile, hsz, hty2]
    refine ⟨by simp [generateCaption, hval], ?_, ?_, ?_⟩
    · intro hs _
      exact absurd hs hsz
    · intro hs _
      exact absurd hs hsz
    · intro _ _
      rw [hval]
      rfl

/-- Witness for C3 at an 11 MiB text file violating both constraints. -/
theorem generateCaption_validation_400_witness :
    generateCaption ⟨11534336, "text/plain", "a"⟩ ⟨none, none⟩ =
      .validationError
        "File too large (11.00MB). Max: 10MB, File must be an image" 400 :=
  ((generateCaption_validation_400 ⟨11534336, "text/plain", "a"⟩
    ⟨none, none⟩ (Or.inl (by decide))).1).trans (by rfl)

/-- Splitting a field search over a concatenation of multipart entries. -/
theorem hasStrField_append (xs ys : List FormEntry) (f : String) :
    hasStrField (xs ++ ys) f = (hasStrField xs f || hasStrField ys f) := by
  simp [hasStrField, List.any_append]

/-- The beam-width entries never carry the method field. -/
theorem beamWidthEntries_no_method (b : Option Int) :
    hasStrField (beamWidthEntries b) "method" = false := by
  cases b with
  | none => rfl
  | some n =>
    unfold beamWidthEntries
    split
    · simp [hasStrField]
    · rfl

/-- The method entries never carry the beam_width field. -/
theorem methodEntries_no_beam (m : Option String) :
    hasStrField (methodEntries m) "beam_width" = false := by
  cases m with
  | none => rfl
  | some s =>
    unfold methodEntries
    split
    · simp [hasStrField]
    · rfl

/-- A method field among the method entries forces a supplied, truthy
method option. -/
theorem methodEntries_method (m : Option String)
    (h : hasStrField (methodEntries m) "method" = true) :
    ∃ s, m = some s ∧ s ≠ "" := by
  cases m with
  | none => simp [methodEntries, hasStrField] at h
  | some s =>
    refine ⟨s, rfl, ?_⟩
    intro hs
    subst hs
    simp [methodEntries, hasStrField] at h

/-- A beam_width field among the beam-width entries forces a supplied,
truthy beamWidth option. -/
theorem beamWidthEntries_beam (b : Option Int)
    (h : hasStrField (beamWidthEntries b) "beam_width" = true) :
    ∃ n, b = some n ∧ n ≠ 0 := by
  cases b with
  | none => simp [beamWidthEntries, hasStrField] at h
  | some n =>
    refine ⟨n, rfl, ?_⟩
    intro hn
    subst hn
    simp [beamWidthEntries, hasStrField] at h

/-- C7 (amended): for every valid file, generateCaption submits a POST to
the fixed caption-generation path whose multipart body contains the file
under field "file", contains the string field "method" if and only if the
method option is supplied with a truthy (non-empty) value, and contains
the string field "beam_width" holding the string encoding of beamWidth if
and only if the beamWidth option is supplied with a truthy (non-zero)
value; supplied falsy options are omitted. -/
theorem generateCaption_request_shape (file : JFile)
    (options : CaptionOptions) (h : validateFile file = []) :
    ∃ req, generateCaption file options = .request req ∧
      req.path = "/generate-caption" ∧ req.method = "POST" ∧
      FormEntry.file "file" file ∈ req.body ∧
      (∀ m, options.method = some m → m ≠ "" →
        FormEntry.str "method" m ∈ req.body) ∧
      (hasStrField req.body "method" = true →
        ∃ m, options.method = some m ∧ m ≠ "") ∧
      (∀ b, options.beamWidth = some b → b ≠ 0 →
        FormEntry.str "beam_width" (toString b) ∈ req.body) ∧
      (hasStrField req.body "beam_width" = true →
        ∃ b, options.beamWidth = some b ∧ b ≠ 0) := by
  refine ⟨⟨"/generate-caption", "POST",
    [.file "file" file] ++ methodEntries options.method ++
      beamWidthEntries options.beamWidth⟩, ?_, rfl, rfl, ?_, ?_, ?_, ?_, ?_⟩
  · simp [generateCaption, h]
  · simp
  · intro m hm hne
    rw [hm]
    have hb : (m != "") = true := by simpa using hne
    simp [methodEntries, hb]
  · intro hf
    rw [hasStrField_append, hasStrField_append,
      beamWidthEntries_no_method] at hf
    have h1 : hasStrField [FormEntry.file "file" file] "method" = false := rfl
    rw [h1] at hf
    simp only [Bool.false_or, Bool.or_false] at hf
    exact methodEntries_method options.method hf
  · intro b hb hbne
    rw [hb]
    have hb2 : (b != 0) = true := by simpa using hbne
    simp [beamWidthEntries, hb2]
  · intro hf
    rw [hasStrField_append, hasStrField_append,
      methodEntries_no_beam] at hf
    have h1 : hasStrField [FormEntry.file "file" file] "beam_width" = false :=
      rfl
    rw [h1] at hf
    simp only [Bool.false_or, Bool.or_false] at hf
    exact beamWidthEntries_beam options.beamWidth hf

/-- Witness for C7 at a valid PNG file with method beam_search and
beamWidth 3 supplied. -/
theorem generateCaption_request_shape_witness :
    ∃ req, generateCaption ⟨100, "image/png", "a"⟩
        ⟨some "beam_search", some 3⟩ = .request req ∧
      req.path = "/generate-caption" ∧ req.method = "POST" ∧
      FormEntry.file "file" ⟨100, "image/png", "a"⟩ ∈ req.body ∧
      (∀ m, (CaptionOptions.mk (some "beam_search") (some 3)).method =
          some m → m ≠ "" → FormEntry.str "method" m ∈ req.body) ∧
      (hasStrField req.body "method" = true →
        ∃ m, (CaptionOptions.mk (some "beam_search") (some 3)).method =
          some m ∧ m ≠ "") ∧
      (∀ b, (CaptionOptions.mk (some "beam_search") (some 3)).beamWidth =
          some b → b ≠ 0 →
        FormEntry.str "beam_width" (toString b) ∈ req.body) ∧
      (hasStrField req.body "beam_width" = true →
        ∃ b, (CaptionOptions.mk (some "beam_search") (some 3)).beamWidth =
          some b ∧ b ≠ 0) :=
  generateCaption_request_shape ⟨100, "image/png", "a"⟩
    ⟨some "beam_search", some 3⟩ (by decide)
